import Mathlib

/-!
Shallow embedding of the transit-nova-alert tracking core.

Sources embedded:
* `src/types/index.ts` — the data model (Location, Destination, Journey, Alert,
  the enums TransportMode / JourneyStatus / AlertType / TrackingMode,
  UserPreferences).
* `src/utils/storage.ts` — `DEFAULT_PREFERENCES`, `StorageManager.addJourney`.
* `src/utils/geolocation.ts` and `src/unnamed/part_000` — `calculateDistance`
  (haversine), `estimateArrivalTime`, the foreground `GeolocationManager`
  (watch id, backup interval, `stopTracking`).
* `src/services/nominatimService.ts` (second compilation unit, the
  `BackgroundLocationService`) — the smart-tracking reevaluation step
  (`setupSmartTrackingAlgorithm`), `stopTracking`.
* `src/hooks/useJourneyManager.ts` — the journey controller: the tracking
  effect (threshold chain with `checkAndSendAlert`), `completeJourney`,
  `startJourney`, `stopJourney`, `pauseJourney`, `resumeJourney`,
  `emergencyStop`.

Modelling conventions: the React hook state (`currentJourney`,
`currentLocation`, `isTracking`, `alertedDistances`, `error`) together with
the tracking mode held by the geolocation manager and the dispatched
notifications are collected in one record `ManagerState`; state updates are
modelled as sequential mutations in program order, which is the
single-logical-thread, arrival-order semantics the code relies on — with
one deliberate exception on the arrival path, where the source's
`completeJourney` reads the stale render-scope `currentJourney` closure and
its plain-value `setCurrentJourney(completedJourney)` replaces the
functional updates queued earlier in the same effect run, so the appended
arrived Alert and the final distance update are discarded (see
`journeyStep`).
Coordinates, distances and durations are rationals; where the code computes
`calculateDistance(currentLocation, destination.location)` with real-valued
trigonometry, the step functions instead take the computed distance `d` as a
parameter (the claims quantify over distance samples), while
`calculateDistance` itself is embedded over the reals for the metric claims.
-/

namespace TransitNova

/-- Transport modes from `src/types/index.ts`. -/
inductive TransportMode
  | bus
  | train
  | car
  | walk
deriving DecidableEq, Repr

/-- Journey statuses from `src/types/index.ts`. -/
inductive JourneyStatus
  | idle
  | starting
  | tracking
  | approaching
  | arrived
  | paused
  | stopped
deriving DecidableEq, Repr

/-- Alert types from `src/types/index.ts`. -/
inductive AlertType
  | first_warning
  | approaching
  | final_warning
  | arrived
  | emergency
deriving DecidableEq, Repr

/-- Tracking modes from `src/types/index.ts`. -/
inductive TrackingMode
  | minimal
  | active
  | precision
deriving DecidableEq, Repr

/-- Location record from `src/types/index.ts` (lat/lng plus optional
accuracy and timestamp), with rational coordinates. -/
structure Location where
  lat : ℚ
  lng : ℚ
  accuracy : Option ℚ := none
  timestamp : Option ℕ := none
deriving DecidableEq, Repr

/-- Destination record from `src/types/index.ts` (the optional
favourite/last-used bookkeeping is carried along unchanged). -/
structure Destination where
  id : String
  name : String
  address : String
  location : Location
  placeId : Option String := none
  isFavorite : Option Bool := none
  lastUsed : Option ℕ := none
deriving DecidableEq, Repr

/-- Alert record from `src/types/index.ts`. -/
structure Alert where
  id : String
  type : AlertType
  message : String
  timestamp : ℕ
  distance : Option ℚ := none
deriving DecidableEq, Repr

/-- Journey record from `src/types/index.ts` (the unused `route` field is
omitted). -/
structure Journey where
  id : String
  destination : Destination
  startTime : ℕ
  endTime : Option ℕ := none
  transportMode : TransportMode
  status : JourneyStatus
  startLocation : Option Location := none
  currentLocation : Option Location := none
  alerts : List Alert
  distance : Option ℚ := none
  estimatedArrival : Option ℕ := none
  actualArrival : Option ℕ := none
deriving DecidableEq, Repr

/-- The `alertDistances` preference group from `src/types/index.ts`. -/
structure AlertDistances where
  first : ℚ
  approaching : ℚ
  final : ℚ
deriving DecidableEq, Repr

/-- The `notifications` preference group from `src/types/index.ts`. -/
structure NotificationPrefs where
  sound : Bool
  vibration : Bool
  visual : Bool
deriving DecidableEq, Repr

/-- The slice of `UserPreferences` the tracking core reads
(`src/types/index.ts`; appearance/tracking groups are not consulted by the
embedded code paths). -/
structure UserPreferences where
  defaultTransportMode : TransportMode
  alertDistances : AlertDistances
  notifications : NotificationPrefs
deriving DecidableEq, Repr

/-- `DEFAULT_PREFERENCES` from `src/utils/storage.ts`: first warning at
600000 ms (10 minutes), approaching at 1000 m, final at 200 m, all
notification channels on. -/
def DEFAULT_PREFERENCES : UserPreferences :=
  { defaultTransportMode := .bus
    alertDistances := { first := 600000, approaching := 1000, final := 200 }
    notifications := { sound := true, vibration := true, visual := true } }

/-- The notification dispatches the journey manager can perform
(`NotificationManager.showProgressAlert/showFinalAlert/showArrivalAlert/
showEmergencyAlert` in `src/utils/notifications.ts`), recorded as events. -/
inductive NotificationEvent
  | progressAlert (distance : ℚ) (etaEstimate : ℕ)
  | finalAlert
  | arrivalAlert
  | emergencyAlert (message : String)
deriving DecidableEq, Repr

/-- `getAlertTitle` from `src/hooks/useJourneyManager.ts`. -/
def getAlertTitle : AlertType → String
  | .first_warning => "Journey Alert"
  | .approaching => "Approaching Destination"
  | .final_warning => "Get Ready!"
  | .arrived => "Destination Reached"
  | _ => "Transit Alert"

/-- `getAlertMessage` from `src/hooks/useJourneyManager.ts`. -/
def getAlertMessage : AlertType → String
  | .first_warning => "You are approaching your destination. Stay alert!"
  | .approaching => "Less than 1km to your destination. Prepare to exit."
  | .final_warning => "Very close to your destination. Get ready to exit!"
  | .arrived => "You have arrived at your destination. Safe travels!"
  | _ => "Transit notification"

/-- String tag of an alert type, as used in the alert id
`id: alertType_Date.now()` built by `checkAndSendAlert`. -/
def alertTypeTag : AlertType → String
  | .first_warning => "first_warning"
  | .approaching => "approaching"
  | .final_warning => "final_warning"
  | .arrived => "arrived"
  | .emergency => "emergency"

/-- `StorageManager.addJourney` from `src/utils/storage.ts`: unshift the
journey onto the history and keep only the first 100 entries. -/
def addJourney (j : Journey) (history : List Journey) : List Journey :=
  (j :: history).take 100

/-- The journey-manager state: the hook state of `useJourneyManager`
(`currentJourney`, `currentLocation`, `isTracking`, `alertedDistances`,
`error`), the tracking mode held by the `GeolocationManager`, the journey
history written through `StorageManager.addJourney`, the log of dispatched
notifications, and whether a grace-period clear timeout is pending. -/
structure ManagerState where
  currentJourney : Option Journey
  currentLocation : Option Location
  isTracking : Bool
  trackingMode : TrackingMode
  alerted : List AlertType
  error : Option String
  notifications : List NotificationEvent
  history : List Journey
  pendingClear : Bool
deriving DecidableEq, Repr

/-- The initial hook state: no journey, no location, not tracking, minimal
mode, no alerts fired, no error. -/
def initState : ManagerState :=
  { currentJourney := none
    currentLocation := none
    isTracking := false
    trackingMode := .minimal
    alerted := []
    error := none
    notifications := []
    history := []
    pendingClear := false }

/-- The `const alert: Alert = {...}` record built by `checkAndSendAlert`:
`id` is the type tag joined with `Date.now()`, message from
`getAlertMessage`, the triggering distance attached. -/
def mkAlert (alertType : AlertType) (now : ℕ) (distance : ℚ) : Alert :=
  { id := alertTypeTag alertType ++ "_" ++ toString now
    type := alertType
    message := getAlertMessage alertType
    timestamp := now
    distance := some distance }

/-- The notification dispatched per alert type by the switch in
`checkAndSendAlert`: first warning and approaching send a progress alert
with a fixed ETA estimate (600000 ms resp. 120000 ms), final warning the
final alert, arrived the arrival alert; the switch has no case for
`emergency`, which therefore dispatches nothing here. -/
def alertNotification (alertType : AlertType) (distance : ℚ) : List NotificationEvent :=
  match alertType with
  | .first_warning => [.progressAlert distance 600000]
  | .approaching => [.progressAlert distance 120000]
  | .final_warning => [.finalAlert]
  | .arrived => [.arrivalAlert]
  | .emergency => []

/-- `checkAndSendAlert` from `src/hooks/useJourneyManager.ts` (lines
117–166): if the distance is within the threshold and this alert type has
not fired yet, append the Alert record to the journey, dispatch the
type-specific notification when sound or vibration is enabled, and mark
the type as fired. `now` stands for `Date.now()`. -/
def checkAndSendAlert (prefs : UserPreferences) (now : ℕ) (alertType : AlertType)
    (distance threshold : ℚ) (s : ManagerState) : ManagerState :=
  if distance ≤ threshold ∧ alertType ∉ s.alerted then
    { s with
      currentJourney := s.currentJourney.map fun j : Journey =>
        { j with alerts := j.alerts ++ [mkAlert alertType now distance] }
      notifications := s.notifications ++
        (if prefs.notifications.sound || prefs.notifications.vibration then
          alertNotification alertType distance
        else [])
      alerted := alertType :: s.alerted }
  else s

/-- `completeJourney` from `src/hooks/useJourneyManager.ts` (lines 208–235):
mark the journey arrived with end/arrival times, write it through to the
history, stop location tracking, and schedule the grace-period clear of the
current journey. -/
def completeJourney (now : ℕ) (s : ManagerState) : ManagerState :=
  match s.currentJourney with
  | none => s
  | some j =>
    let completedJourney : Journey :=
      { j with status := .arrived, endTime := some now, actualArrival := some now }
    { s with
      currentJourney := some completedJourney
      history := addJourney completedJourney s.history
      isTracking := false
      pendingClear := true }

/-- One run of the tracking effect of `useJourneyManager` (lines 99–186) for
a newly delivered location sample: guard on an active tracking journey,
record the sample and its computed distance `d` (standing for
`calculateDistance(currentLocation, destination.location)`), then walk the
threshold chain nearest-first — arrived at 50 m (then `completeJourney`),
final warning at the `final` preference (force precision mode), approaching
at the `approaching` preference (force active mode), otherwise minimal
mode. A delivered sample also clears the error state
(`handleLocationUpdate`).

In the arrival branch `checkAndSendAlert` queues its functional updates
(the Alert append, the notification dispatch, the fired-set mark), but
`completeJourney` then builds `completedJourney` from the render-scope
`currentJourney` closure — the journey as of effect start, without the
distance update or the appended Alert — and performs a plain-value
`setCurrentJourney(completedJourney)` that replaces the queued functional
appends. So the final current journey (and the history write-through,
which uses the same `completedJourney` value) deterministically lacks the
arrived Alert record, while the notification and the fired-set mark (both
separate state) survive. This is modelled by restoring the matched journey
`j` into the state before handing it to `completeJourney`. -/
def journeyStep (prefs : UserPreferences) (now : ℕ) (loc : Location) (d : ℚ)
    (s : ManagerState) : ManagerState :=
  match s.currentJourney with
  | none => { s with currentLocation := some loc, error := none }
  | some j =>
    if j.status ≠ .tracking then { s with currentLocation := some loc, error := none }
    else
      let s1 : ManagerState := { s with
        currentLocation := some loc
        error := none
        currentJourney := some { j with currentLocation := some loc, distance := some d } }
      if d ≤ 50 then
        completeJourney now
          { checkAndSendAlert prefs now .arrived d 50 s1 with currentJourney := some j }
      else if d ≤ prefs.alertDistances.final then
        { checkAndSendAlert prefs now .final_warning d prefs.alertDistances.final s1 with
          trackingMode := .precision }
      else if d ≤ prefs.alertDistances.approaching then
        { checkAndSendAlert prefs now .approaching d prefs.alertDistances.approaching s1 with
          trackingMode := .active }
      else
        { s1 with trackingMode := .minimal }

/-- Process a finite sequence of samples in arrival order; each sample is a
triple of its `Date.now()` timestamp, the delivered location, and the
computed distance to the destination. -/
def processSamples (prefs : UserPreferences) (samples : List (ℕ × Location × ℚ))
    (s : ManagerState) : ManagerState :=
  samples.foldl (fun st p => journeyStep prefs p.1 p.2.1 p.2.2 st) s

/-- `startJourney` from `src/hooks/useJourneyManager.ts` (lines 237–288):
if location permission is refused the thrown error is caught and surfaced in
the `error` state and nothing else changes (notification-permission refusal
only logs a warning); otherwise a fresh tracking journey is created from the
captured start location (with computed initial distance `d0`), the fired-set
is reset and sampling starts. -/
def startJourney (permission : Bool) (startLocation : Location) (d0 : ℚ)
    (dest : Destination) (mode : TransportMode) (now : ℕ)
    (s : ManagerState) : ManagerState :=
  if permission = false then
    { s with error := some "Location permission is required for journey tracking" }
  else
    let journey : Journey :=
      { id := "journey_" ++ toString now
        destination := dest
        startTime := now
        transportMode := mode
        status := .tracking
        startLocation := some startLocation
        currentLocation := some startLocation
        alerts := []
        distance := some d0 }
    { s with
      currentJourney := some journey
      currentLocation := some startLocation
      alerted := []
      isTracking := true }

/-- `stopJourney` from `src/hooks/useJourneyManager.ts` (lines 290–315):
no-op without a journey; otherwise mark it stopped with an end time, write
it through to the history, stop tracking, and schedule the grace-period
clear. -/
def stopJourney (now : ℕ) (s : ManagerState) : ManagerState :=
  match s.currentJourney with
  | none => s
  | some j =>
    let stoppedJourney : Journey := { j with status := .stopped, endTime := some now }
    { s with
      currentJourney := some stoppedJourney
      history := addJourney stoppedJourney s.history
      isTracking := false
      pendingClear := true }

/-- `pauseJourney` from `src/hooks/useJourneyManager.ts` (lines 317–328):
no-op without a journey; otherwise set status paused and stop tracking. -/
def pauseJourney (s : ManagerState) : ManagerState :=
  match s.currentJourney with
  | none => s
  | some j =>
    { s with currentJourney := some { j with status := .paused }, isTracking := false }

/-- `resumeJourney` from `src/hooks/useJourneyManager.ts` (lines 330–341):
no-op without a journey; otherwise set status tracking and restart
tracking. -/
def resumeJourney (s : ManagerState) : ManagerState :=
  match s.currentJourney with
  | none => s
  | some j =>
    { s with currentJourney := some { j with status := .tracking }, isTracking := true }

/-- `emergencyStop` from `src/hooks/useJourneyManager.ts` (lines 343–359):
no-op without a journey; otherwise run `stopJourney` and dispatch the
emergency notification (`showEmergencyAlert`). No Alert record is appended
anywhere on this path. -/
def emergencyStop (now : ℕ) (s : ManagerState) : ManagerState :=
  match s.currentJourney with
  | none => s
  | some _ =>
    let s1 := stopJourney now s
    { s1 with notifications :=
        s1.notifications ++ [.emergencyAlert "Emergency stop activated. Journey tracking stopped."] }

/-- The grace-period timeout bodies scheduled by `completeJourney` (3 s) and
`stopJourney` (1 s): clear the current journey and the fired-alert set. -/
def graceClear (s : ManagerState) : ManagerState :=
  if s.pendingClear then
    { s with currentJourney := none, alerted := [], pendingClear := false }
  else s

/-- Status of the current journey, if any. -/
def journeyStatus (s : ManagerState) : Option JourneyStatus :=
  s.currentJourney.map Journey.status

/-- Alerts of the current journey ([] when no journey is present). -/
def journeyAlerts (s : ManagerState) : List Alert :=
  match s.currentJourney with
  | none => []
  | some j => j.alerts

/-- Number of alerts of a given type in an alert list. -/
def countAlerts (t : AlertType) (l : List Alert) : ℕ :=
  (l.filter fun a => a.type == t).length

/-- `estimateArrivalTime` from `src/utils/geolocation.ts`: constant-speed
ETA in milliseconds, speeds walk 5 / bus 25 / train 40 / car 30 km/h (the
code defaults unknown mode strings to 25; the enum covers all four). -/
def estimateArrivalTime (distance : ℚ) (transportMode : TransportMode) : ℚ :=
  let speed : ℚ :=
    match transportMode with
    | .walk => 5
    | .bus => 25
    | .train => 40
    | .car => 30
  let timeInHours := (distance / 1000) / speed
  timeInHours * 60 * 60 * 1000

/-- The mode/interval selection inside `setupSmartTrackingAlgorithm`
(`BackgroundLocationService`, lines 304–320): on the estimated remaining
time in milliseconds, at most 5 min gives precision with a 30 s recheck, at
most 15 min gives active with 120 s, at most 30 min gives active with
300 s, and otherwise the mode stays at its initial value `minimal` with
recheck `min(30 min, eta/4)`. -/
def selectTracking (etaMs : ℚ) : TrackingMode × ℚ :=
  if etaMs ≤ 300000 then (.precision, 30000)
  else if etaMs ≤ 900000 then (.active, 120000)
  else if etaMs ≤ 1800000 then (.active, 300000)
  else (.minimal, min 1800000 (etaMs / 4))

/-- Smart-tracking configuration (`SmartTrackingConfig` in the
`BackgroundLocationService` unit). -/
structure SmartTrackingConfig where
  destinationLocation : Location
  estimatedTotalTime : ℚ
  transportMode : TransportMode
deriving DecidableEq, Repr

/-- State of the `BackgroundLocationService`: the Capacitor watch id, the
smart-tracking config, the last known location, the tracking start time,
the current mode, and whether a self-rescheduled `setTimeout` reevaluation
(`checkAndUpdateTracking`) is pending. The service holds no cancellation
handle for that timeout. -/
structure BgState where
  watchId : Option String
  config : Option SmartTrackingConfig
  lastKnownLocation : Option Location
  trackingStartTime : ℕ
  currentTrackingMode : TrackingMode
  pendingRecheck : Bool
deriving DecidableEq, Repr

/-- One firing of `checkAndUpdateTracking` (the reevaluation timer body in
`setupSmartTrackingAlgorithm`): with no config or no last location it
returns without doing anything and without rescheduling; otherwise it
selects a mode from the ETA of the computed distance `d` (standing for
`calculateDistance(lastKnownLocation, config.destinationLocation)`), on a
mode change restarts the watch, otherwise requests one position, and in
either case reschedules itself. The second component records whether a
location acquisition was triggered (leading to a sample being forwarded to
subscribers). -/
def bgCheck (d : ℚ) (s : BgState) : BgState × Bool :=
  match s.config with
  | none => ({ s with pendingRecheck := false }, false)
  | some cfg =>
    match s.lastKnownLocation with
    | none => ({ s with pendingRecheck := false }, false)
    | some _ =>
      let eta := estimateArrivalTime d cfg.transportMode
      let sel := selectTracking eta
      if sel.1 ≠ s.currentTrackingMode then
        ({ s with currentTrackingMode := sel.1, watchId := some "watch", pendingRecheck := true },
          true)
      else
        ({ s with pendingRecheck := true }, true)

/-- `startSmartTracking` (lines 240–267): store the config and start time,
acquire an initial location (`getCurrentLocationAndTrack`, emitting the
sample `loc`), then run `checkAndUpdateTracking` once, which schedules the
reevaluation timer. -/
def bgStartSmartTracking (cfg : SmartTrackingConfig) (now : ℕ) (loc : Location)
    (d : ℚ) (s : BgState) : BgState :=
  let s1 : BgState := { s with
    config := some cfg
    trackingStartTime := now
    lastKnownLocation := some loc }
  (bgCheck d s1).1

/-- `BackgroundLocationService.stopTracking` (lines 396–417): clear the
watch, drop the config, and reset the mode to minimal. The pending
reevaluation `setTimeout` is not cancelled — there is no handle to it — so
`pendingRecheck` is left unchanged. -/
def bgStopTracking (s : BgState) : BgState :=
  { s with watchId := none, config := none, currentTrackingMode := .minimal }

/-- State of the foreground `GeolocationManager` (`src/unnamed/part_000`):
the platform watch id, the backup interval timer id, the last position, the
tracking mode, and the background-mode flag. -/
structure GeoState where
  watchId : Option ℕ
  trackingInterval : Option ℕ
  lastPosition : Option Location
  trackingMode : TrackingMode
  isBackgroundMode : Bool
deriving DecidableEq, Repr

/-- `GeolocationManager.stopTracking` (part_000, lines 220–232): clear the
platform watch and the backup interval. -/
def fgStopTracking (s : GeoState) : GeoState :=
  { s with watchId := none, trackingInterval := none }

/-- `GeolocationManager.startTracking` (part_000, lines 147–187): no-op in
background mode; otherwise clear any previous watch/interval and register a
fresh watch, plus the backup interval when the mode is active or
precision. `fresh` stands for the platform-assigned ids. -/
def fgStartTracking (fresh : ℕ) (s : GeoState) : GeoState :=
  if s.isBackgroundMode then s
  else
    let s1 := fgStopTracking s
    { s1 with
      watchId := some fresh
      trackingInterval :=
        if s.trackingMode = .active ∨ s.trackingMode = .precision then some fresh else none }

/-- Delivery of a platform watch sample: the callback registered by
`watchPosition` runs only while the watch is registered (`clearWatch`
removes it); when it runs it stores the position and forwards it to every
subscribed callback (second component: forwarded). -/
def fgWatchDeliver (loc : Location) (s : GeoState) : GeoState × Bool :=
  match s.watchId with
  | none => (s, false)
  | some _ => ({ s with lastPosition := some loc }, true)

/-- One firing of the backup interval (`startTrackingInterval`, part_000
lines 189–218): runs only while the interval is registered; the acquired
position is forwarded only if it differs from the last position by more
than 0.0001 degrees in latitude or longitude. -/
def fgIntervalTick (loc : Location) (s : GeoState) : GeoState × Bool :=
  match s.trackingInterval with
  | none => (s, false)
  | some _ =>
    match s.lastPosition with
    | none => ({ s with lastPosition := some loc }, true)
    | some last =>
      if |loc.lat - last.lat| > 1/10000 ∨ |loc.lng - last.lng| > 1/10000 then
        ({ s with lastPosition := some loc }, true)
      else (s, false)

/-- `Math.atan2` as used by `calculateDistance`: the JavaScript two-argument
arctangent. -/
noncomputable def atan2 (y x : ℝ) : ℝ :=
  if 0 < x then Real.arctan (y / x)
  else if x < 0 ∧ 0 ≤ y then Real.arctan (y / x) + Real.pi
  else if x < 0 ∧ y < 0 then Real.arctan (y / x) - Real.pi
  else if x = 0 ∧ 0 < y then Real.pi / 2
  else if x = 0 ∧ y < 0 then -(Real.pi / 2)
  else 0

/-- The intermediate `a` of `calculateDistance` from
`src/utils/geolocation.ts` (lines 170–185): the haversine quantity
`sin²(Δlat/2) + cos(lat1)·cos(lat2)·sin²(Δlng/2)` on radians converted from
degrees. -/
noncomputable def haversineA (point1 point2 : Location) : ℝ :=
  let lat1Rad := ((point1.lat : ℝ) * Real.pi) / 180
  let lat2Rad := ((point2.lat : ℝ) * Real.pi) / 180
  let deltaLatRad := (((point2.lat : ℝ) - (point1.lat : ℝ)) * Real.pi) / 180
  let deltaLngRad := (((point2.lng : ℝ) - (point1.lng : ℝ)) * Real.pi) / 180
  Real.sin (deltaLatRad / 2) * Real.sin (deltaLatRad / 2) +
    Real.cos lat1Rad * Real.cos lat2Rad *
      (Real.sin (deltaLngRad / 2) * Real.sin (deltaLngRad / 2))

/-- `calculateDistance` from `src/utils/geolocation.ts` (lines 170–185):
haversine great-circle distance in meters with Earth radius 6371000 m,
`c = 2·atan2(√a, √(1−a))`, result `R·c`. -/
noncomputable def calculateDistance (point1 point2 : Location) : ℝ :=
  let R : ℝ := 6371000
  let a := haversineA point1 point2
  let c := 2 * atan2 (Real.sqrt a) (Real.sqrt (1 - a))
  R * c

/-- The at-most-once invariant relating a journey's alert list to the
fired-type set `alertedDistances`: a type not yet marked as fired does not
occur in the list, and a marked type occurs at most once. -/
def AlertOnceInv (s : ManagerState) : Prop :=
  ∀ t : AlertType, countAlerts t (journeyAlerts s) ≤ if t ∈ s.alerted then 1 else 0

/-- Example location fixture used to instantiate the claim theorems. -/
def exLoc : Location :=
  { lat := 0, lng := 0 }

/-- Example destination fixture. -/
def exDest : Destination :=
  { id := "d1", name := "Central Station", address := "1 Main St", location := exLoc }

/-- Example in-progress tracking journey fixture. -/
def exJourney : Journey :=
  { id := "j1"
    destination := exDest
    startTime := 0
    transportMode := .bus
    status := .tracking
    startLocation := some exLoc
    currentLocation := some exLoc
    alerts := []
    distance := some 5000 }

/-- Example manager state holding the tracking journey fixture. -/
def exTracking : ManagerState :=
  { initState with currentJourney := some exJourney }

/-- Example manager state whose journey has already arrived (as happens
during the grace window after `completeJourney`). -/
def exArrived : ManagerState :=
  { initState with currentJourney := some { exJourney with status := .arrived } }

/-- Example manager state whose journey is paused. -/
def exPaused : ManagerState :=
  { initState with currentJourney := some { exJourney with status := .paused } }

/-- Example smart-tracking configuration fixture. -/
def exCfg : SmartTrackingConfig :=
  { destinationLocation := exLoc, estimatedTotalTime := 720000, transportMode := .bus }

/-- Example idle background-service state fixture. -/
def exBg0 : BgState :=
  { watchId := none
    config := none
    lastKnownLocation := none
    trackingStartTime := 0
    currentTrackingMode := .minimal
    pendingRecheck := false }

/-- Example foreground geolocation-manager state with an active watch and
backup interval. -/
def exGeo : GeoState :=
  { watchId := some 7
    trackingInterval := some 8
    lastPosition := some exLoc
    trackingMode := .active
    isBackgroundMode := false }

/-!
Branch lemmas computing the step functions on each control path, used by
the claim theorems below.
-/

lemma checkAndSendAlert_fire {prefs : UserPreferences} {now : ℕ} {alertType : AlertType}
    {d th : ℚ} {s : ManagerState} (h : d ≤ th ∧ alertType ∉ s.alerted) :
    checkAndSendAlert prefs now alertType d th s =
      { s with
        currentJourney := s.currentJourney.map fun j : Journey =>
          { j with alerts := j.alerts ++ [mkAlert alertType now d] }
        notifications := s.notifications ++
          (if prefs.notifications.sound || prefs.notifications.vibration then
            alertNotification alertType d
          else [])
        alerted := alertType :: s.alerted } := by
  unfold checkAndSendAlert
  rw [if_pos h]

lemma checkAndSendAlert_skip {prefs : UserPreferences} {now : ℕ} {alertType : AlertType}
    {d th : ℚ} {s : ManagerState} (h : ¬ (d ≤ th ∧ alertType ∉ s.alerted)) :
    checkAndSendAlert prefs now alertType d th s = s := by
  unfold checkAndSendAlert
  rw [if_neg h]

lemma journeyStep_noJourney {prefs : UserPreferences} {now : ℕ} {loc : Location}
    {d : ℚ} {s : ManagerState} (hj : s.currentJourney = none) :
    journeyStep prefs now loc d s = { s with currentLocation := some loc, error := none } := by
  unfold journeyStep
  rw [hj]

lemma journeyStep_notTracking {prefs : UserPreferences} {now : ℕ} {loc : Location}
    {d : ℚ} {s : ManagerState} {j : Journey}
    (hj : s.currentJourney = some j) (hst : j.status ≠ .tracking) :
    journeyStep prefs now loc d s = { s with currentLocation := some loc, error := none } := by
  unfold journeyStep
  rw [hj]
  simp [hst]

lemma journeyStep_arrived {prefs : UserPreferences} {now : ℕ} {loc : Location}
    {d : ℚ} {s : ManagerState} {j : Journey}
    (hj : s.currentJourney = some j) (hst : j.status = .tracking) (h1 : d ≤ 50) :
    journeyStep prefs now loc d s =
      completeJourney now
        { checkAndSendAlert prefs now .arrived d 50
            { s with
              currentLocation := some loc
              error := none
              currentJourney := some { j with currentLocation := some loc, distance := some d } } with
          currentJourney := some j } := by
  unfold journeyStep
  rw [hj]
  simp [hst, h1]

lemma journeyStep_final {prefs : UserPreferences} {now : ℕ} {loc : Location}
    {d : ℚ} {s : ManagerState} {j : Journey}
    (hj : s.currentJourney = some j) (hst : j.status = .tracking)
    (h1 : ¬ d ≤ 50) (h2 : d ≤ prefs.alertDistances.final) :
    journeyStep prefs now loc d s =
      { checkAndSendAlert prefs now .final_warning d prefs.alertDistances.final
          { s with
            currentLocation := some loc
            error := none
            currentJourney := some { j with currentLocation := some loc, distance := some d } } with
        trackingMode := .precision } := by
  unfold journeyStep
  rw [hj]
  simp [hst, h1, h2]

lemma journeyStep_approaching {prefs : UserPreferences} {now : ℕ} {loc : Location}
    {d : ℚ} {s : ManagerState} {j : Journey}
    (hj : s.currentJourney = some j) (hst : j.status = .tracking)
    (h1 : ¬ d ≤ 50) (h2 : ¬ d ≤ prefs.alertDistances.final)
    (h3 : d ≤ prefs.alertDistances.approaching) :
    journeyStep prefs now loc d s =
      { checkAndSendAlert prefs now .approaching d prefs.alertDistances.approaching
          { s with
            currentLocation := some loc
            error := none
            currentJourney := some { j with currentLocation := some loc, distance := some d } } with
        trackingMode := .active } := by
  unfold journeyStep
  rw [hj]
  simp [hst, h1, h2, h3]

lemma journeyStep_far {prefs : UserPreferences} {now : ℕ} {loc : Location}
    {d : ℚ} {s : ManagerState} {j : Journey}
    (hj : s.currentJourney = some j) (hst : j.status = .tracking)
    (h1 : ¬ d ≤ 50) (h2 : ¬ d ≤ prefs.alertDistances.final)
    (h3 : ¬ d ≤ prefs.alertDistances.approaching) :
    journeyStep prefs now loc d s =
      { s with
        currentLocation := some loc
        error := none
        currentJourney := some { j with currentLocation := some loc, distance := some d }
        trackingMode := .minimal } := by
  unfold journeyStep
  rw [hj]
  simp [hst, h1, h2, h3]

lemma journeyStep_approaching_fired {prefs : UserPreferences} {now : ℕ} {loc : Location}
    {d : ℚ} {s : ManagerState} {j : Journey}
    (hj : s.currentJourney = some j) (hst : j.status = .tracking)
    (h1 : ¬ d ≤ 50) (h2 : ¬ d ≤ prefs.alertDistances.final)
    (h3 : d ≤ prefs.alertDistances.approaching)
    (hmem : AlertType.approaching ∉ s.alerted)
    (hsnd : (prefs.notifications.sound || prefs.notifications.vibration) = true) :
    journeyStep prefs now loc d s =
      { s with
        currentLocation := some loc
        error := none
        currentJourney := some { j with
          currentLocation := some loc
          distance := some d
          alerts := j.alerts ++ [mkAlert .approaching now d] }
        notifications := s.notifications ++ [.progressAlert d 120000]
        alerted := .approaching :: s.alerted
        trackingMode := .active } := by
  rw [journeyStep_approaching hj hst h1 h2 h3]
  simp [checkAndSendAlert, alertNotification, h3, hmem, hsnd]

lemma journeyStep_final_fired {prefs : UserPreferences} {now : ℕ} {loc : Location}
    {d : ℚ} {s : ManagerState} {j : Journey}
    (hj : s.currentJourney = some j) (hst : j.status = .tracking)
    (h1 : ¬ d ≤ 50) (h2 : d ≤ prefs.alertDistances.final)
    (hmem : AlertType.final_warning ∉ s.alerted)
    (hsnd : (prefs.notifications.sound || prefs.notifications.vibration) = true) :
    journeyStep prefs now loc d s =
      { s with
        currentLocation := some loc
        error := none
        currentJourney := some { j with
          currentLocation := some loc
          distance := some d
          alerts := j.alerts ++ [mkAlert .final_warning now d] }
        notifications := s.notifications ++ [.finalAlert]
        alerted := .final_warning :: s.alerted
        trackingMode := .precision } := by
  rw [journeyStep_final hj hst h1 h2]
  simp [checkAndSendAlert, alertNotification, h2, hmem, hsnd]

lemma journeyStep_arrived_fired {prefs : UserPreferences} {now : ℕ} {loc : Location}
    {d : ℚ} {s : ManagerState} {j : Journey}
    (hj : s.currentJourney = some j) (hst : j.status = .tracking)
    (h1 : d ≤ 50)
    (hmem : AlertType.arrived ∉ s.alerted)
    (hsnd : (prefs.notifications.sound || prefs.notifications.vibration) = true) :
    journeyStep prefs now loc d s =
      { s with
        currentLocation := some loc
        error := none
        currentJourney := some { j with
          status := .arrived
          endTime := some now
          actualArrival := some now }
        notifications := s.notifications ++ [.arrivalAlert]
        alerted := .arrived :: s.alerted
        history := addJourney
          { j with
            status := .arrived
            endTime := some now
            actualArrival := some now } s.history
        isTracking := false
        pendingClear := true } := by
  rw [journeyStep_arrived hj hst h1]
  simp [checkAndSendAlert, completeJourney, alertNotification, h1, hmem, hsnd]

lemma countAlerts_append (t : AlertType) (l1 l2 : List Alert) :
    countAlerts t (l1 ++ l2) = countAlerts t l1 + countAlerts t l2 := by
  simp [countAlerts, List.filter_append]

lemma alertOnceInv_congr {s1 s2 : ManagerState}
    (h1 : journeyAlerts s2 = journeyAlerts s1) (h2 : s2.alerted = s1.alerted)
    (h : AlertOnceInv s1) : AlertOnceInv s2 := by
  intro t
  rw [h1, h2]
  exact h t

lemma alertOnceInv_checkAndSendAlert {prefs : UserPreferences} {now : ℕ}
    {alertType : AlertType} {d th : ℚ} {s : ManagerState}
    (h : AlertOnceInv s) : AlertOnceInv (checkAndSendAlert prefs now alertType d th s) := by
  obtain ⟨cj, cl, it, tm, al, er, no, hi, pc⟩ := s
  by_cases hc : d ≤ th ∧ alertType ∉ al
  · rw [checkAndSendAlert_fire hc]
    intro t
    cases cj with
    | none =>
      show countAlerts t [] ≤ if t ∈ alertType :: al then 1 else 0
      exact Nat.zero_le _
    | some jj =>
      have hbase : countAlerts t jj.alerts ≤ if t ∈ al then 1 else 0 := h t
      show countAlerts t (jj.alerts ++ [mkAlert alertType now d]) ≤
        if t ∈ alertType :: al then 1 else 0
      rw [countAlerts_append]
      by_cases hts : t = alertType
      · subst hts
        have hzero : countAlerts t jj.alerts = 0 := by
          rw [if_neg hc.2] at hbase
          omega
        have hone : countAlerts t [mkAlert t now d] = 1 := by
          simp [countAlerts, mkAlert]
        rw [hzero, hone, if_pos (by simp : t ∈ t :: al)]
      · have hzero : countAlerts t [mkAlert alertType now d] = 0 := by
          simp [countAlerts, mkAlert]
          intro hcontra
          exact absurd hcontra.symm hts
        have hmem : (if t ∈ alertType :: al then 1 else 0 : ℕ) =
            if t ∈ al then 1 else 0 := by
          by_cases hm : t ∈ al
          · rw [if_pos hm, if_pos (List.mem_cons_of_mem _ hm)]
          · rw [if_neg hm, if_neg (by simp [List.mem_cons, hts, hm])]
        rw [hzero, hmem]
        omega
  · rw [checkAndSendAlert_skip hc]
    exact h

lemma alertOnceInv_completeJourney {now : ℕ} {s : ManagerState}
    (h : AlertOnceInv s) : AlertOnceInv (completeJourney now s) := by
  obtain ⟨cj, cl, it, tm, al, er, no, hi, pc⟩ := s
  cases cj with
  | none => exact h
  | some jj =>
    intro t
    have hbase : countAlerts t jj.alerts ≤ if t ∈ al then 1 else 0 := h t
    exact hbase

lemma ite_one_zero_mono {t x : AlertType} {al : List AlertType} :
    (if t ∈ al then 1 else 0 : ℕ) ≤ if t ∈ x :: al then 1 else 0 := by
  by_cases h : t ∈ al
  · rw [if_pos h, if_pos (List.mem_cons_of_mem _ h)]
  · rw [if_neg h]
    exact Nat.zero_le _

lemma alertOnceInv_arrivalClobber {prefs : UserPreferences} {now : ℕ}
    {alertType : AlertType} {d th : ℚ} {s : ManagerState} {j : Journey}
    (hja : journeyAlerts s = j.alerts)
    (h : AlertOnceInv s) :
    AlertOnceInv (completeJourney now
      { checkAndSendAlert prefs now alertType d th s with currentJourney := some j }) := by
  intro t
  have hbase : countAlerts t j.alerts ≤ if t ∈ s.alerted then 1 else 0 := by
    rw [← hja]
    exact h t
  show countAlerts t j.alerts ≤
    if t ∈ (checkAndSendAlert prefs now alertType d th s).alerted then 1 else 0
  by_cases hc : d ≤ th ∧ alertType ∉ s.alerted
  · rw [checkAndSendAlert_fire hc]
    calc countAlerts t j.alerts ≤ if t ∈ s.alerted then 1 else 0 := hbase
      _ ≤ if t ∈ alertType :: s.alerted then 1 else 0 := ite_one_zero_mono
  · rw [checkAndSendAlert_skip hc]
    exact hbase

lemma alertOnceInv_journeyStep {prefs : UserPreferences} {now : ℕ} {loc : Location}
    {d : ℚ} {s : ManagerState}
    (h : AlertOnceInv s) : AlertOnceInv (journeyStep prefs now loc d s) := by
  obtain ⟨cj, cl, it, tm, al, er, no, hi, pc⟩ := s
  cases cj with
  | none =>
    rw [journeyStep_noJourney rfl]
    intro t
    exact h t
  | some jj =>
    by_cases hstt : jj.status = .tracking
    · have hinner : AlertOnceInv
          (ManagerState.mk
            (some { jj with currentLocation := some loc, distance := some d })
            (some loc) it tm al none no hi pc) := by
        intro t
        have hbase : countAlerts t jj.alerts ≤ if t ∈ al then 1 else 0 := h t
        exact hbase
      by_cases h1 : d ≤ 50
      · rw [journeyStep_arrived rfl hstt h1]
        exact alertOnceInv_arrivalClobber rfl hinner
      · by_cases h2 : d ≤ prefs.alertDistances.final
        · rw [journeyStep_final rfl hstt h1 h2]
          intro t
          exact alertOnceInv_checkAndSendAlert hinner t
        · by_cases h3 : d ≤ prefs.alertDistances.approaching
          · rw [journeyStep_approaching rfl hstt h1 h2 h3]
            intro t
            exact alertOnceInv_checkAndSendAlert hinner t
          · rw [journeyStep_far rfl hstt h1 h2 h3]
            intro t
            exact h t
    · rw [journeyStep_notTracking rfl hstt]
      intro t
      exact h t

lemma alertOnceInv_processSamples {prefs : UserPreferences}
    (samples : List (ℕ × Location × ℚ)) {s : ManagerState}
    (h : AlertOnceInv s) : AlertOnceInv (processSamples prefs samples s) := by
  induction samples generalizing s with
  | nil => exact h
  | cons p rest ih =>
    exact ih (alertOnceInv_journeyStep h)

/-- Claim C1 evaluated at its stated input, exhibiting the divergence: for
a journey in tracking status with the default thresholds and no alerts
fired yet, processing [5000, 900, 150, 40] does make the approaching and
final-warning alerts fire in order, dispatches the arrival notification,
marks `arrived` in the fired set, sets the journey status to arrived and
stops sampling — but the arrived Alert record itself is lost: the
plain-value `setCurrentJourney(completedJourney)` in `completeJourney`,
built from the stale render-scope journey, replaces the queued append, so
the final alerts list (and the journey written to the history) ends at
[approaching, final_warning] instead of the claimed
[approaching, final_warning, arrived]. -/
theorem claim_C1_arrived_alert_lost
    (s : ManagerState) (j : Journey) (loc : Location) (t0 t1 t2 t3 : ℕ)
    (hj : s.currentJourney = some j) (hst : j.status = .tracking)
    (ha : j.alerts = []) (hf : s.alerted = []) :
    (journeyAlerts (processSamples DEFAULT_PREFERENCES
        [(t0, loc, 5000), (t1, loc, 900), (t2, loc, 150), (t3, loc, 40)] s)).map Alert.type =
      [.approaching, .final_warning] ∧
    (journeyAlerts (processSamples DEFAULT_PREFERENCES
        [(t0, loc, 5000), (t1, loc, 900), (t2, loc, 150), (t3, loc, 40)] s)).map Alert.distance =
      [some 900, some 150] ∧
    journeyStatus (processSamples DEFAULT_PREFERENCES
        [(t0, loc, 5000), (t1, loc, 900), (t2, loc, 150), (t3, loc, 40)] s) = some .arrived ∧
    (processSamples DEFAULT_PREFERENCES
        [(t0, loc, 5000), (t1, loc, 900), (t2, loc, 150), (t3, loc, 40)] s).isTracking = false ∧
    AlertType.arrived ∈ (processSamples DEFAULT_PREFERENCES
        [(t0, loc, 5000), (t1, loc, 900), (t2, loc, 150), (t3, loc, 40)] s).alerted ∧
    (processSamples DEFAULT_PREFERENCES
        [(t0, loc, 5000), (t1, loc, 900), (t2, loc, 150), (t3, loc, 40)] s).notifications =
      s.notifications ++ [.progressAlert 900 120000, .finalAlert, .arrivalAlert] ∧
    ((processSamples DEFAULT_PREFERENCES
        [(t0, loc, 5000), (t1, loc, 900), (t2, loc, 150), (t3, loc, 40)] s).history.head?.map
      fun jh : Journey => jh.alerts.map Alert.type) = some [.approaching, .final_warning] := by
  have e1 : journeyStep DEFAULT_PREFERENCES t0 loc 5000 s =
      { s with
        currentLocation := some loc
        error := none
        currentJourney := some { j with currentLocation := some loc, distance := some (5000 : ℚ) }
        trackingMode := .minimal } :=
    journeyStep_far hj hst (by norm_num) (by norm_num [DEFAULT_PREFERENCES])
      (by norm_num [DEFAULT_PREFERENCES])
  have hj1 : (journeyStep DEFAULT_PREFERENCES t0 loc 5000 s).currentJourney =
      some { j with currentLocation := some loc, distance := some (5000 : ℚ) } := by rw [e1]
  have hal1 : (journeyStep DEFAULT_PREFERENCES t0 loc 5000 s).alerted = [] := by
    rw [e1]; exact hf
  have e2 := @journeyStep_approaching_fired DEFAULT_PREFERENCES t1 loc 900
    (journeyStep DEFAULT_PREFERENCES t0 loc 5000 s)
    { j with currentLocation := some loc, distance := some (5000 : ℚ) }
    hj1 hst (by norm_num) (by norm_num [DEFAULT_PREFERENCES])
    (by norm_num [DEFAULT_PREFERENCES]) (by rw [hal1]; simp) rfl
  have hj2 : (journeyStep DEFAULT_PREFERENCES t1 loc 900
        (journeyStep DEFAULT_PREFERENCES t0 loc 5000 s)).currentJourney =
      some { j with
        currentLocation := some loc
        distance := some (900 : ℚ)
        alerts := j.alerts ++ [mkAlert .approaching t1 900] } := by rw [e2]
  have hal2 : (journeyStep DEFAULT_PREFERENCES t1 loc 900
        (journeyStep DEFAULT_PREFERENCES t0 loc 5000 s)).alerted = [.approaching] := by
    rw [e2]; simp [hal1]
  have e3 := @journeyStep_final_fired DEFAULT_PREFERENCES t2 loc 150
    (journeyStep DEFAULT_PREFERENCES t1 loc 900
      (journeyStep DEFAULT_PREFERENCES t0 loc 5000 s))
    { j with
      currentLocation := some loc
      distance := some (900 : ℚ)
      alerts := j.alerts ++ [mkAlert .approaching t1 900] }
    hj2 hst (by norm_num) (by norm_num [DEFAULT_PREFERENCES]) (by rw [hal2]; simp) rfl
  have hj3 : (journeyStep DEFAULT_PREFERENCES t2 loc 150
        (journeyStep DEFAULT_PREFERENCES t1 loc 900
          (journeyStep DEFAULT_PREFERENCES t0 loc 5000 s))).currentJourney =
      some { j with
        currentLocation := some loc
        distance := some (150 : ℚ)
        alerts := j.alerts ++ [mkAlert .approaching t1 900] ++ [mkAlert .final_warning t2 150] } := by
    rw [e3]
  have hal3 : (journeyStep DEFAULT_PREFERENCES t2 loc 150
        (journeyStep DEFAULT_PREFERENCES t1 loc 900
          (journeyStep DEFAULT_PREFERENCES t0 loc 5000 s))).alerted =
      [.final_warning, .approaching] := by
    rw [e3]; simp [hal2]
  have e4 := @journeyStep_arrived_fired DEFAULT_PREFERENCES t3 loc 40
    (journeyStep DEFAULT_PREFERENCES t2 loc 150
      (journeyStep DEFAULT_PREFERENCES t1 loc 900
        (journeyStep DEFAULT_PREFERENCES t0 loc 5000 s)))
    { j with
      currentLocation := some loc
      distance := some (150 : ℚ)
      alerts := j.alerts ++ [mkAlert .approaching t1 900] ++ [mkAlert .final_warning t2 150] }
    hj3 hst (by norm_num) (by rw [hal3]; simp) rfl
  have hfold : processSamples DEFAULT_PREFERENCES
      [(t0, loc, 5000), (t1, loc, 900), (t2, loc, 150), (t3, loc, 40)] s =
      journeyStep DEFAULT_PREFERENCES t3 loc 40
        (journeyStep DEFAULT_PREFERENCES t2 loc 150
          (journeyStep DEFAULT_PREFERENCES t1 loc 900
            (journeyStep DEFAULT_PREFERENCES t0 loc 5000 s))) := rfl
  have hno1 : (journeyStep DEFAULT_PREFERENCES t0 loc 5000 s).notifications =
      s.notifications := by rw [e1]
  have hno2 : (journeyStep DEFAULT_PREFERENCES t1 loc 900
        (journeyStep DEFAULT_PREFERENCES t0 loc 5000 s)).notifications =
      s.notifications ++ [NotificationEvent.progressAlert 900 120000] := by
    rw [e2]; simp [hno1]
  have hno3 : (journeyStep DEFAULT_PREFERENCES t2 loc 150
        (journeyStep DEFAULT_PREFERENCES t1 loc 900
          (journeyStep DEFAULT_PREFERENCES t0 loc 5000 s))).notifications =
      s.notifications ++ [NotificationEvent.progressAlert 900 120000,
        NotificationEvent.finalAlert] := by
    rw [e3]; simp [hno2]
  have hh1 : (journeyStep DEFAULT_PREFERENCES t0 loc 5000 s).history = s.history := by rw [e1]
  have hh2 : (journeyStep DEFAULT_PREFERENCES t1 loc 900
        (journeyStep DEFAULT_PREFERENCES t0 loc 5000 s)).history = s.history := by
    rw [e2]; exact hh1
  have hh3 : (journeyStep DEFAULT_PREFERENCES t2 loc 150
        (journeyStep DEFAULT_PREFERENCES t1 loc 900
          (journeyStep DEFAULT_PREFERENCES t0 loc 5000 s))).history = s.history := by
    rw [e3]; exact hh2
  rw [hfold, e4]
  refine ⟨?_, ?_, ?_, ?_, ?_, ?_, ?_⟩ <;>
    simp [journeyAlerts, journeyStatus, mkAlert, ha, addJourney, hal3, hno3, hh3]

/-- Witness for the claim C1 divergence theorem at the concrete tracking
fixture. -/
theorem claim_C1_witness :
    (journeyAlerts (processSamples DEFAULT_PREFERENCES
        [(1, exLoc, 5000), (2, exLoc, 900), (3, exLoc, 150), (4, exLoc, 40)] exTracking)).map
        Alert.type = [.approaching, .final_warning] ∧
    (journeyAlerts (processSamples DEFAULT_PREFERENCES
        [(1, exLoc, 5000), (2, exLoc, 900), (3, exLoc, 150), (4, exLoc, 40)] exTracking)).map
        Alert.distance = [some 900, some 150] ∧
    journeyStatus (processSamples DEFAULT_PREFERENCES
        [(1, exLoc, 5000), (2, exLoc, 900), (3, exLoc, 150), (4, exLoc, 40)] exTracking) =
      some .arrived ∧
    (processSamples DEFAULT_PREFERENCES
        [(1, exLoc, 5000), (2, exLoc, 900), (3, exLoc, 150), (4, exLoc, 40)] exTracking).isTracking =
      false ∧
    AlertType.arrived ∈ (processSamples DEFAULT_PREFERENCES
        [(1, exLoc, 5000), (2, exLoc, 900), (3, exLoc, 150), (4, exLoc, 40)] exTracking).alerted ∧
    (processSamples DEFAULT_PREFERENCES
        [(1, exLoc, 5000), (2, exLoc, 900), (3, exLoc, 150), (4, exLoc, 40)] exTracking).notifications =
      exTracking.notifications ++ [.progressAlert 900 120000, .finalAlert, .arrivalAlert] ∧
    ((processSamples DEFAULT_PREFERENCES
        [(1, exLoc, 5000), (2, exLoc, 900), (3, exLoc, 150), (4, exLoc, 40)] exTracking).history.head?.map
      fun jh : Journey => jh.alerts.map Alert.type) = some [.approaching, .final_warning] :=
  claim_C1_arrived_alert_lost exTracking exJourney exLoc 1 2 3 4 rfl rfl rfl rfl

/-!
Distance-metric lemmas for the haversine embedding.
-/

lemma haversineA_symm (p q : Location) : haversineA p q = haversineA q p := by
  simp only [haversineA]
  rw [show (((p.lat : ℝ) - (q.lat : ℝ)) * Real.pi) / 180 / 2 =
      -((((q.lat : ℝ) - (p.lat : ℝ)) * Real.pi) / 180 / 2) from by ring]
  rw [show (((p.lng : ℝ) - (q.lng : ℝ)) * Real.pi) / 180 / 2 =
      -((((q.lng : ℝ) - (p.lng : ℝ)) * Real.pi) / 180 / 2) from by ring]
  rw [Real.sin_neg, Real.sin_neg]
  ring

lemma calculateDistance_symm (p q : Location) :
    calculateDistance p q = calculateDistance q p := by
  simp only [calculateDistance]
  rw [haversineA_symm]

lemma haversineA_self (p : Location) : haversineA p p = 0 := by
  simp only [haversineA]
  rw [show (((p.lat : ℝ) - (p.lat : ℝ)) * Real.pi) / 180 / 2 = 0 from by ring]
  rw [show (((p.lng : ℝ) - (p.lng : ℝ)) * Real.pi) / 180 / 2 = 0 from by ring]
  rw [Real.sin_zero]
  ring

lemma atan2_zero_one : atan2 0 1 = 0 := by
  unfold atan2
  rw [if_pos one_pos]
  simp [Real.arctan_zero]

lemma calculateDistance_self (p : Location) : calculateDistance p p = 0 := by
  simp only [calculateDistance]
  rw [haversineA_self, Real.sqrt_zero]
  rw [show (1 : ℝ) - 0 = 1 from by ring, Real.sqrt_one, atan2_zero_one]
  ring

/-- Claim C9: for every pair of points, `calculateDistance` is symmetric
within relative tolerance 1e-6 (it is in fact exactly symmetric, so the
difference is 0), and the distance from any point to itself is 0. -/
theorem claim_C9_distance_metric :
    (∀ p q : Location, |calculateDistance p q - calculateDistance q p| ≤
      (1 / 1000000) * |calculateDistance p q|) ∧
    ∀ p : Location, calculateDistance p p = 0 := by
  constructor
  · intro p q
    rw [calculateDistance_symm p q, sub_self, abs_zero]
    positivity
  · exact calculateDistance_self

/-- Claim C5: the reevaluation step of the smart-tracking algorithm selects
precision with a 30 s recheck for ETA of at most 5 min, active with 120 s
up to 15 min, active with 300 s up to 30 min, and otherwise minimal with
recheck `min(30 min, ETA/4)` (all times in milliseconds). -/
theorem claim_C5_mode_selection (etaMs : ℚ) :
    (etaMs ≤ 300000 → selectTracking etaMs = (.precision, 30000)) ∧
    (300000 < etaMs → etaMs ≤ 900000 → selectTracking etaMs = (.active, 120000)) ∧
    (900000 < etaMs → etaMs ≤ 1800000 → selectTracking etaMs = (.active, 300000)) ∧
    (1800000 < etaMs → selectTracking etaMs = (.minimal, min 1800000 (etaMs / 4))) := by
  refine ⟨?_, ?_, ?_, ?_⟩
  · intro h
    unfold selectTracking
    rw [if_pos h]
  · intro h1 h2
    unfold selectTracking
    rw [if_neg (not_le.mpr h1), if_pos h2]
  · intro h1 h2
    unfold selectTracking
    rw [if_neg (not_le.mpr (by linarith)), if_neg (not_le.mpr h1), if_pos h2]
  · intro h
    unfold selectTracking
    rw [if_neg (not_le.mpr (by linarith)), if_neg (not_le.mpr (by linarith)),
      if_neg (not_le.mpr h)]

/-- Witness for claim C5 at the four ETA instances named by the spec:
4 min gives precision, 10 min and 25 min give active, 120 min gives minimal
with a 30 min recheck. -/
theorem claim_C5_witness :
    selectTracking 240000 = (.precision, 30000) ∧
    selectTracking 600000 = (.active, 120000) ∧
    selectTracking 1500000 = (.active, 300000) ∧
    selectTracking 7200000 = (.minimal, 1800000) := by
  refine ⟨(claim_C5_mode_selection 240000).1 (by norm_num),
    (claim_C5_mode_selection 600000).2.1 (by norm_num) (by norm_num),
    (claim_C5_mode_selection 1500000).2.2.1 (by norm_num) (by norm_num),
    ?_⟩
  have h := (claim_C5_mode_selection 7200000).2.2.2 (by norm_num)
  rw [h]
  norm_num

/-- Claim C8: when location permission is refused, `startJourney` aborts
without creating a journey: the failure is surfaced in the error state, the
current journey stays null, sampling activity, notifications and history
are unchanged, and no retry happens (the call resolves into exactly this
one error-state update). -/
theorem claim_C8_permission_denied (s : ManagerState) (loc : Location) (d0 : ℚ)
    (dest : Destination) (mode : TransportMode) (now : ℕ)
    (h : s.currentJourney = none) :
    startJourney false loc d0 dest mode now s =
      { s with error := some "Location permission is required for journey tracking" } ∧
    (startJourney false loc d0 dest mode now s).currentJourney = none ∧
    (startJourney false loc d0 dest mode now s).isTracking = s.isTracking ∧
    (startJourney false loc d0 dest mode now s).notifications = s.notifications ∧
    (startJourney false loc d0 dest mode now s).history = s.history ∧
    (startJourney false loc d0 dest mode now s).error =
      some "Location permission is required for journey tracking" := by
  refine ⟨rfl, ?_, rfl, rfl, rfl, rfl⟩
  exact h

/-- Witness for claim C8 at the initial state with permission refused. -/
theorem claim_C8_witness :
    startJourney false exLoc 5000 exDest .bus 0 initState =
      { initState with
        error := some "Location permission is required for journey tracking" } ∧
    (startJourney false exLoc 5000 exDest .bus 0 initState).currentJourney = none ∧
    (startJourney false exLoc 5000 exDest .bus 0 initState).isTracking = initState.isTracking ∧
    (startJourney false exLoc 5000 exDest .bus 0 initState).notifications =
      initState.notifications ∧
    (startJourney false exLoc 5000 exDest .bus 0 initState).history = initState.history ∧
    (startJourney false exLoc 5000 exDest .bus 0 initState).error =
      some "Location permission is required for journey tracking" :=
  claim_C8_permission_denied initState exLoc 5000 exDest .bus 0 rfl

/-- Claim C10: every controller call guarded by the missing-journey check
(`stopJourney`, `pauseJourney`, `resumeJourney`, `emergencyStop`) is a
complete no-op when no journey is active: the whole manager state is
returned unchanged. -/
theorem claim_C10_noop_guards (s : ManagerState) (now : ℕ)
    (h : s.currentJourney = none) :
    stopJourney now s = s ∧ pauseJourney s = s ∧ resumeJourney s = s ∧
      emergencyStop now s = s := by
  refine ⟨?_, ?_, ?_, ?_⟩
  · unfold stopJourney
    rw [h]
  · unfold pauseJourney
    rw [h]
  · unfold resumeJourney
    rw [h]
  · unfold emergencyStop
    rw [h]

/-- Witness for claim C10 at the initial (journey-less) state. -/
theorem claim_C10_witness :
    stopJourney 9 initState = initState ∧ pauseJourney initState = initState ∧
      resumeJourney initState = initState ∧ emergencyStop 9 initState = initState :=
  claim_C10_noop_guards initState 9 rfl

/-- Counterexample to claim C2 as stated: on an active tracking journey,
`emergencyStop` marks the journey stopped but leaves zero alerts of type
emergency in its alerts list — not exactly one. -/
theorem claim_C2_counterexample :
    journeyStatus (emergencyStop 5 exTracking) = some .stopped ∧
    countAlerts .emergency (journeyAlerts (emergencyStop 5 exTracking)) = 0 := by
  exact ⟨rfl, rfl⟩

/-- Claim C2 as amended: whenever a journey is active, `emergencyStop`
results in status stopped and dispatches exactly one emergency notification,
but appends no Alert record at all — the journey's alerts list (and in
particular its count of emergency alerts) is unchanged. -/
theorem claim_C2_amended (s : ManagerState) (j : Journey) (now : ℕ)
    (hj : s.currentJourney = some j) :
    journeyStatus (emergencyStop now s) = some .stopped ∧
    journeyAlerts (emergencyStop now s) = journeyAlerts s ∧
    countAlerts .emergency (journeyAlerts (emergencyStop now s)) =
      countAlerts .emergency (journeyAlerts s) ∧
    (emergencyStop now s).notifications = s.notifications ++
      [.emergencyAlert "Emergency stop activated. Journey tracking stopped."] := by
  obtain ⟨cj, cl, it, tm, al, er, no, hi, pc⟩ := s
  have hcj : cj = some j := hj
  subst hcj
  exact ⟨rfl, rfl, rfl, rfl⟩

/-- Witness for the amended claim C2 at the concrete tracking fixture. -/
theorem claim_C2_witness :
    journeyStatus (emergencyStop 5 exTracking) = some .stopped ∧
    journeyAlerts (emergencyStop 5 exTracking) = journeyAlerts exTracking ∧
    countAlerts .emergency (journeyAlerts (emergencyStop 5 exTracking)) =
      countAlerts .emergency (journeyAlerts exTracking) ∧
    (emergencyStop 5 exTracking).notifications = exTracking.notifications ++
      [.emergencyAlert "Emergency stop activated. Journey tracking stopped."] :=
  claim_C2_amended exTracking exJourney 5 rfl

/-- Claim C3 evaluated at the failing input: on a tracking journey by bus
at 1100 m (so above the approaching threshold and with ETA about 158 s, well
under 10 minutes, and with the 600000 ms first-warning preference present in
the defaults), the threshold chain emits no FIRST_WARNING — the alerts list
is unchanged and the step only selects minimal tracking mode. -/
theorem claim_C3_missing_first_warning :
    estimateArrivalTime 1100 .bus ≤ 600000 ∧
    DEFAULT_PREFERENCES.alertDistances.first = 600000 ∧
    DEFAULT_PREFERENCES.alertDistances.approaching < 1100 ∧
    journeyAlerts (journeyStep DEFAULT_PREFERENCES 1 exLoc 1100 exTracking) =
      journeyAlerts exTracking ∧
    countAlerts .first_warning
      (journeyAlerts (journeyStep DEFAULT_PREFERENCES 1 exLoc 1100 exTracking)) = 0 ∧
    (journeyStep DEFAULT_PREFERENCES 1 exLoc 1100 exTracking).trackingMode = .minimal := by
  have e := @journeyStep_far DEFAULT_PREFERENCES 1 exLoc 1100 exTracking exJourney rfl rfl
    (by norm_num) (by norm_num [DEFAULT_PREFERENCES]) (by norm_num [DEFAULT_PREFERENCES])
  refine ⟨by norm_num [estimateArrivalTime], rfl, by norm_num [DEFAULT_PREFERENCES],
    ?_, ?_, ?_⟩ <;> rw [e] <;> rfl

/-- Claim C4: for every journey started with an empty alerts list and every
finite sequence of processed distance samples — including sequences that
oscillate across thresholds — each alert type occurs at most once in the
journey's alerts list. -/
theorem claim_C4_at_most_once (prefs : UserPreferences) (s : ManagerState) (j : Journey)
    (hj : s.currentJourney = some j) (ha : j.alerts = []) (_hf : s.alerted = [])
    (samples : List (ℕ × Location × ℚ)) (t : AlertType) :
    countAlerts t (journeyAlerts (processSamples prefs samples s)) ≤ 1 := by
  have h0 : AlertOnceInv s := by
    intro t2
    have hja : journeyAlerts s = [] := by simp [journeyAlerts, hj, ha]
    rw [hja]
    exact Nat.zero_le _
  have h2 := @alertOnceInv_processSamples prefs samples s h0 t
  calc countAlerts t (journeyAlerts (processSamples prefs samples s)) ≤
      (if t ∈ (processSamples prefs samples s).alerted then 1 else 0) := h2
    _ ≤ 1 := by split <;> norm_num

/-- Witness for claim C4 on a distance sequence that oscillates across the
approaching and final thresholds. -/
theorem claim_C4_witness :
    countAlerts .approaching (journeyAlerts (processSamples DEFAULT_PREFERENCES
      [(1, exLoc, 900), (2, exLoc, 1100), (3, exLoc, 900), (4, exLoc, 150),
        (5, exLoc, 1100), (6, exLoc, 150)] exTracking)) ≤ 1 :=
  claim_C4_at_most_once DEFAULT_PREFERENCES exTracking exJourney rfl rfl rfl
    [(1, exLoc, 900), (2, exLoc, 1100), (3, exLoc, 900), (4, exLoc, 150),
      (5, exLoc, 1100), (6, exLoc, 150)] .approaching

/-- Counterexample to claim C6 as stated: the reachable operation sequence
start, then a sample at 40 m (the journey arrives), then `resumeJourney`
during the grace window moves the journey from arrived back to tracking,
because the resume guard checks only that a journey is present. -/
theorem claim_C6_counterexample :
    journeyStatus (journeyStep DEFAULT_PREFERENCES 1 exLoc 40
      (startJourney true exLoc 5000 exDest .bus 0 initState)) = some .arrived ∧
    journeyStatus (resumeJourney (journeyStep DEFAULT_PREFERENCES 1 exLoc 40
      (startJourney true exLoc 5000 exDest .bus 0 initState))) = some .tracking := by
  decide

/-- Claim C6 as amended: transitions are forward-only for `stopJourney`,
`emergencyStop`, arrival processing (`completeJourney`) and sample
processing — from an arrived or stopped journey none of them yields
tracking or paused; `resumeJourney` moves paused back to tracking. However
`pauseJourney` and `resumeJourney` guard only on journey presence, so while
an arrived/stopped journey is still current (the grace window) they move it
back to paused resp. tracking. -/
theorem claim_C6_amended :
    (∀ (s : ManagerState) (j : Journey) (now : ℕ) (prefs : UserPreferences)
        (loc : Location) (d : ℚ), s.currentJourney = some j →
      j.status = .arrived ∨ j.status = .stopped →
      (journeyStatus (stopJourney now s) ≠ some .tracking ∧
        journeyStatus (stopJourney now s) ≠ some .paused) ∧
      (journeyStatus (emergencyStop now s) ≠ some .tracking ∧
        journeyStatus (emergencyStop now s) ≠ some .paused) ∧
      (journeyStatus (completeJourney now s) ≠ some .tracking ∧
        journeyStatus (completeJourney now s) ≠ some .paused) ∧
      (journeyStatus (journeyStep prefs now loc d s) ≠ some .tracking ∧
        journeyStatus (journeyStep prefs now loc d s) ≠ some .paused)) ∧
    (∀ (s : ManagerState) (j : Journey), s.currentJourney = some j →
      j.status = .paused → journeyStatus (resumeJourney s) = some .tracking) ∧
    (∀ (s : ManagerState) (j : Journey), s.currentJourney = some j →
      j.status = .arrived ∨ j.status = .stopped →
      journeyStatus (resumeJourney s) = some .tracking ∧
      journeyStatus (pauseJourney s) = some .paused) := by
  refine ⟨?_, ?_, ?_⟩
  · intro s j now prefs loc d hj hd
    have hnt : j.status ≠ .tracking := by
      rcases hd with h | h <;> simp [h]
    have hstop : journeyStatus (stopJourney now s) = some .stopped := by
      unfold stopJourney journeyStatus
      rw [hj]
      rfl
    have hemer : journeyStatus (emergencyStop now s) = some .stopped := by
      unfold emergencyStop stopJourney journeyStatus
      rw [hj]
      rfl
    have hcomp : journeyStatus (completeJourney now s) = some .arrived := by
      unfold completeJourney journeyStatus
      rw [hj]
      rfl
    have hstep : journeyStatus (journeyStep prefs now loc d s) = some j.status := by
      rw [journeyStep_notTracking hj hnt]
      simp [journeyStatus, hj]
    rw [hstop, hemer, hcomp, hstep]
    rcases hd with h | h <;> simp [h]
  · intro s j hj hp
    unfold resumeJourney journeyStatus
    rw [hj]
    rfl
  · intro s j hj hd
    constructor
    · unfold resumeJourney journeyStatus
      rw [hj]
      rfl
    · unfold pauseJourney journeyStatus
      rw [hj]
      rfl

/-- Witness for the amended claim C6 at the arrived and paused fixtures. -/
theorem claim_C6_witness :
    ((journeyStatus (stopJourney 1 exArrived) ≠ some .tracking ∧
        journeyStatus (stopJourney 1 exArrived) ≠ some .paused) ∧
      (journeyStatus (emergencyStop 1 exArrived) ≠ some .tracking ∧
        journeyStatus (emergencyStop 1 exArrived) ≠ some .paused) ∧
      (journeyStatus (completeJourney 1 exArrived) ≠ some .tracking ∧
        journeyStatus (completeJourney 1 exArrived) ≠ some .paused) ∧
      (journeyStatus (journeyStep DEFAULT_PREFERENCES 1 exLoc 40 exArrived) ≠ some .tracking ∧
        journeyStatus (journeyStep DEFAULT_PREFERENCES 1 exLoc 40 exArrived) ≠ some .paused)) ∧
    journeyStatus (resumeJourney exPaused) = some .tracking :=
  ⟨claim_C6_amended.1 exArrived { exJourney with status := .arrived } 1 DEFAULT_PREFERENCES
      exLoc 40 rfl (Or.inl rfl),
    claim_C6_amended.2.1 exPaused { exJourney with status := .paused } rfl rfl⟩

/-- Claim C7 as amended: after `stopTracking` the foreground sampler has
cancelled its watch and its backup interval and neither delivers nor
forwards any further sample; the background sampler has cancelled its watch
and dropped its config, and although its self-rescheduled reevaluation
timeout is not cancelled, firing it after stop forwards no sample,
triggers no acquisition and does not reschedule. -/
theorem claim_C7_amended (g : GeoState) (b : BgState) (loc : Location) (d : ℚ) :
    ((fgStopTracking g).watchId = none ∧ (fgStopTracking g).trackingInterval = none ∧
      (fgWatchDeliver loc (fgStopTracking g)).2 = false ∧
      (fgWatchDeliver loc (fgStopTracking g)).1 = fgStopTracking g ∧
      (fgIntervalTick loc (fgStopTracking g)).2 = false ∧
      (fgIntervalTick loc (fgStopTracking g)).1 = fgStopTracking g) ∧
    ((bgStopTracking b).watchId = none ∧ (bgStopTracking b).config = none ∧
      (bgCheck d (bgStopTracking b)).2 = false ∧
      (bgCheck d (bgStopTracking b)).1 = { bgStopTracking b with pendingRecheck := false }) := by
  obtain ⟨gw, gi, gl, gm, gb⟩ := g
  obtain ⟨bw, bc, bl, bt, bm, bp⟩ := b
  exact ⟨⟨rfl, rfl, rfl, rfl, rfl, rfl⟩, ⟨rfl, rfl, rfl, rfl⟩⟩

/-- Counterexample to claim C7 as stated: starting background smart
tracking schedules the self-rescheduling reevaluation timeout, and
`stopTracking` clears the watch and config but leaves that timeout pending
— not every pending timer the sampler created has been cancelled when
`stopTracking` returns. -/
theorem claim_C7_counterexample :
    (bgStartSmartTracking exCfg 0 exLoc 5000 exBg0).pendingRecheck = true ∧
    (bgStopTracking (bgStartSmartTracking exCfg 0 exLoc 5000 exBg0)).watchId = none ∧
    (bgStopTracking (bgStartSmartTracking exCfg 0 exLoc 5000 exBg0)).config = none ∧
    (bgStopTracking (bgStartSmartTracking exCfg 0 exLoc 5000 exBg0)).pendingRecheck = true := by
  have h2 : selectTracking (estimateArrivalTime 5000 TransportMode.bus) = (.active, 120000) := by
    rw [show estimateArrivalTime 5000 TransportMode.bus = 720000 from by
      norm_num [estimateArrivalTime]]
    norm_num [selectTracking]
  have h3 : bgStartSmartTracking exCfg 0 exLoc 5000 exBg0 =
      { exBg0 with
        config := some exCfg
        trackingStartTime := 0
        lastKnownLocation := some exLoc
        currentTrackingMode := .active
        watchId := some "watch"
        pendingRecheck := true } := by
    unfold bgStartSmartTracking bgCheck
    simp only [exBg0, exCfg]
    rw [h2]
    simp
  rw [h3]
  exact ⟨rfl, rfl, rfl, rfl⟩

end TransitNova
